import Mathlib

/-!
# libzerocash: the address primitive (`src/libzerocash/Address.cpp`)

A shallow embedding of `PrivateAddress`, `PublicAddress` and `Address`.

* `std::vector<unsigned char>` is `List Nat` (one number per byte),
  `std::vector<bool>` is `List Bool`, `std::string` is `String`.
* A member function that mutates `*this` takes the object and gives the object
  back. A member function that can throw gives an `Outcome`: either it returned,
  or it threw, and in both cases the `Outcome` carries the contents of `*this`
  at that moment, since a C++ exception does not undo earlier assignments.
* A constructor that can throw gives an `Except`: when a constructor throws, no
  object exists.
* The Crypto++ key operations and the hash are parameters (`Crypto`); the
  random draws of `Address::Address()` are arguments.
-/

namespace libzerocash

/-! ## Constants and helpers that live outside `Address.cpp` -/

/-- Modelled from the spec: the constant `a_sk_size`, declared in `Zerocash.h` and not in
`Address.cpp`. The spec fixes the secret scalar at 32 bytes. -/
def a_sk_size : Nat := 32

/-- Modelled from the spec: the constant `a_pk_size`, declared in `Zerocash.h` and not in
`Address.cpp`. The spec fixes the public commitment at 32 bytes. -/
def a_pk_size : Nat := 32

/-- The eight bits of one byte, most significant bit first. -/
def byteToBits (c : Nat) : List Bool :=
  (List.range 8).map fun j => decide ((c / 2 ^ (7 - j)) % 2 = 1)

/-- The byte whose bits, most significant first, are the given ones. -/
def bitsToByte (bs : List Bool) : Nat :=
  bs.foldl (fun c b => 2 * c + (if b then 1 else 0)) 0

/-- The bytes of a bit sequence: one byte for each full group of eight bits. -/
def bitsToBytes (v : List Bool) : List Nat :=
  (List.range (v.length / 8)).map fun i => bitsToByte ((v.drop (8 * i)).take 8)

/-- Modelled from the spec: the helper `convertBytesVectorToVector(bytes, v)` of the utility
module, defined outside `Address.cpp`. The spec: "Interpret `a_sk` (32 bytes) as a
256-bit value". The output argument `v` receives the bits of `bytes`, eight for each byte; the
spec names no bit order and the most significant bit is taken first. -/
def convertBytesVectorToVector (bytes : List Nat) (_v : List Bool) : List Bool :=
  bytes.flatMap byteToBits

/-- Modelled from the spec: the helper `concatenateVectors(A, B, result)` of the utility
module, defined outside `Address.cpp`. The spec: "Concatenate with 256 zero bits to
form a 512-bit input". The output argument `result` is extended by `A` and then by `B`. -/
def concatenateVectors (A B result : List Bool) : List Bool :=
  result ++ A ++ B

/-- Modelled from the spec: the helper `convertVectorToBytesVector(v, bytes)` of the utility
module, defined outside `Address.cpp`. The spec: "produce a 256-bit digest; store as
`a_pk` (32 bytes)". The output argument `bytes` receives the byte encoding of `v`. -/
def convertVectorToBytesVector (v : List Bool) (_bytes : List Nat) : List Nat :=
  bitsToBytes v

/-- Modelled from the spec: the helper `convertBytesToBytesVector(bytes, v)` of the utility
module, defined outside `Address.cpp`. The spec: "draw 32 bytes from a
cryptographically secure random source for `a_sk`". The output argument `v` receives the
`a_sk_size` bytes of the array `bytes`. -/
def convertBytesToBytesVector (bytes : Fin a_sk_size → Nat) (_v : List Nat) : List Nat :=
  List.ofFn bytes

/-- The operations the code takes from outside: the fixed hash behind `hashVector`, and the
Crypto++ operations on `ECIES<ECP>` keys. `SK` is the type of decoded private keys, `PK` the
type of public keys. -/
structure Crypto (SK PK : Type) where
  /-- The fixed hash `H`, from bit sequences to bit sequences. -/
  H : List Bool → List Bool
  /-- The spec: `H` is "a collision-resistant hash with 256-bit output". -/
  H_length : ∀ input, (H input).length = 256
  /-- The call `PrivateKey::Load(StringStore(s).Ref())`: the decoded key, or `none` when
  Crypto++ throws because `s` is not an encoded private key. -/
  Load : String → Option SK
  /-- The call `PrivateKey::MakePublicKey`. -/
  MakePublicKey : SK → PK
  /-- The call `PublicKey::Save` into a `StringSink`. -/
  SavePublicKey : PK → String
  /-- The call `PrivateKey::Save` into a `StringSink`. -/
  SavePrivateKey : SK → String

/-- Modelled from the spec: the helper `hashVector(input, output)` of the utility module,
defined outside `Address.cpp`. The spec: "Apply the fixed collision-resistant hash
function to produce a 256-bit digest". The output argument receives `H input`. -/
def hashVector {SK PK : Type} (E : Crypto SK PK) (input : List Bool) (_output : List Bool) :
    List Bool :=
  E.H input

/-- The one kind of error: Crypto++ could not decode the private key. -/
inductive Error where
  | decodingError
  deriving DecidableEq, Repr

/-- How a call of a member function that may throw ends: it returned, or it threw; `self` is
the object the call worked on, as the call left it. -/
inductive Outcome (σ : Type) where
  | returned (self : σ)
  | threw (e : Error) (self : σ)
  deriving DecidableEq, Repr

/-- The object as the call left it. -/
def Outcome.self {σ : Type} : Outcome σ → σ
  | .returned s => s
  | .threw _ s => s

/-- Whether the call threw. -/
def Outcome.failed {σ : Type} : Outcome σ → Bool
  | .returned _ => false
  | .threw _ _ => true

/-! ## PrivateAddress -/

/-- The class `PrivateAddress`: the fields `a_sk` and `sk_enc`. -/
structure PrivateAddress where
  a_sk : List Nat
  sk_enc : String
  deriving DecidableEq, Repr

namespace PrivateAddress

/-- The constructor `PrivateAddress::PrivateAddress()`: `a_sk` is default-initialised (an empty
vector) and `sk_enc` is set to the empty string. -/
def ctor : PrivateAddress :=
  { a_sk := [], sk_enc := "" }

/-- The function `PrivateAddress::createPrivateAddress`. -/
def createPrivateAddress (self : PrivateAddress) (a_sk : List Nat) (sk_enc : String) :
    PrivateAddress :=
  let self := { self with a_sk := a_sk }
  { self with sk_enc := sk_enc }

/-- The operator `PrivateAddress::operator==`. -/
def eq (self rhs : PrivateAddress) : Bool :=
  (self.a_sk == rhs.a_sk) && (self.sk_enc == rhs.sk_enc)

/-- The operator `PrivateAddress::operator!=`. -/
def ne (self rhs : PrivateAddress) : Bool :=
  !(self.eq rhs)

/-- The accessor `PrivateAddress::getEncryptionSecretKey`. -/
def getEncryptionSecretKey (self : PrivateAddress) : String :=
  self.sk_enc

/-- The accessor `PrivateAddress::getAddressSecret`. -/
def getAddressSecret (self : PrivateAddress) : List Nat :=
  self.a_sk

end PrivateAddress

/-! ## PublicAddress -/

/-- The class `PublicAddress`: the fields `a_pk` and `pk_enc`. -/
structure PublicAddress where
  a_pk : List Nat
  pk_enc : String
  deriving DecidableEq, Repr

namespace PublicAddress

/-- The constructor `PublicAddress::PublicAddress()`: `a_pk` is a vector of `a_pk_size` zero
bytes and `pk_enc` is set to the empty string. -/
def ctor : PublicAddress :=
  { a_pk := List.replicate a_pk_size 0, pk_enc := "" }

/-- The function `PublicAddress::createPublicAddress`, statement by statement. The assignment
to `this->a_pk` comes before the call of `Load`, so it has taken place when `Load` throws. -/
def createPublicAddress {SK PK : Type} (E : Crypto SK PK) (self : PublicAddress)
    (a_sk : List Nat) (sk_enc : String) : Outcome PublicAddress :=
  let a_sk_bool : List Bool := List.replicate (a_sk_size * 8) false
  let a_sk_bool := convertBytesVectorToVector a_sk a_sk_bool
  let zeros_256 : List Bool := List.replicate 256 false
  let a_pk_internal : List Bool := []
  let a_pk_internal := concatenateVectors a_sk_bool zeros_256 a_pk_internal
  let a_pk_bool : List Bool := List.replicate (a_pk_size * 8) false
  let a_pk_bool := hashVector E a_pk_internal a_pk_bool
  let self := { self with a_pk := convertVectorToBytesVector a_pk_bool self.a_pk }
  match E.Load sk_enc with
  | none => Outcome.threw Error.decodingError self
  | some decodedPrivateKey =>
    let publicKey := E.MakePublicKey decodedPrivateKey
    let encodedPublicKey := E.SavePublicKey publicKey
    Outcome.returned { self with pk_enc := encodedPublicKey }

/-- The constructor `PublicAddress::PublicAddress(a_sk, sk_enc)`: `a_pk` starts as `a_pk_size`
zero bytes, `pk_enc` as the empty string, then `createPublicAddress` runs; when it throws, the
constructor throws and there is no object. -/
def ctorFrom {SK PK : Type} (E : Crypto SK PK) (a_sk : List Nat) (sk_enc : String) :
    Except Error PublicAddress :=
  match createPublicAddress E { a_pk := List.replicate a_pk_size 0, pk_enc := "" } a_sk sk_enc with
  | Outcome.returned self => Except.ok self
  | Outcome.threw e _ => Except.error e

/-- The accessor `PublicAddress::getEncryptionPublicKey`. -/
def getEncryptionPublicKey (self : PublicAddress) : String :=
  self.pk_enc

/-- The accessor `PublicAddress::getPublicAddressSecret`. -/
def getPublicAddressSecret (self : PublicAddress) : List Nat :=
  self.a_pk

/-- The operator `PublicAddress::operator==`. -/
def eq (self rhs : PublicAddress) : Bool :=
  (self.a_pk == rhs.a_pk) && (self.pk_enc == rhs.pk_enc)

/-- The operator `PublicAddress::operator!=`. -/
def ne (self rhs : PublicAddress) : Bool :=
  !(self.eq rhs)

end PublicAddress

/-! ## Address -/

/-- The class `Address`: the fields `addr_pk` and `addr_sk`. -/
structure Address where
  addr_pk : PublicAddress
  addr_sk : PrivateAddress
  deriving DecidableEq, Repr

namespace Address

/-- The constructor `Address::Address(PrivateAddress& priv)`. Both members are first
default-constructed; `priv` is assigned to `addr_sk`; the temporary `pubaddr` is constructed
from the accessors of `priv`, and when that throws the constructor throws. -/
def ctorFromPriv {SK PK : Type} (E : Crypto SK PK) (priv : PrivateAddress) :
    Except Error Address :=
  let self : Address := { addr_pk := PublicAddress.ctor, addr_sk := PrivateAddress.ctor }
  let self := { self with addr_sk := priv }
  match PublicAddress.ctorFrom E priv.getAddressSecret priv.getEncryptionSecretKey with
  | Except.error e => Except.error e
  | Except.ok pubaddr => Except.ok { self with addr_pk := pubaddr }

/-- The constructor `Address::Address()`. The two random draws are arguments: `a_sk_bytes` is
the array that `getRandBytes` filled, `privateKey` the key that
`privateKey.Initialize(prng, ASN1::secp256r1())` made. When `createPublicAddress` throws, the
constructor throws. -/
def ctor {SK PK : Type} (E : Crypto SK PK) (a_sk_bytes : Fin a_sk_size → Nat) (privateKey : SK) :
    Except Error Address :=
  let self : Address := { addr_pk := PublicAddress.ctor, addr_sk := PrivateAddress.ctor }
  let a_sk : List Nat := List.replicate a_sk_size 0
  let a_sk := convertBytesToBytesVector a_sk_bytes a_sk
  let encodedPrivateKey := E.SavePrivateKey privateKey
  match self.addr_pk.createPublicAddress E a_sk encodedPrivateKey with
  | Outcome.threw e _ => Except.error e
  | Outcome.returned addr_pk =>
    let self := { self with addr_pk := addr_pk }
    Except.ok { self with addr_sk := self.addr_sk.createPrivateAddress a_sk encodedPrivateKey }

/-- The accessor `Address::getPublicAddress`. -/
def getPublicAddress (self : Address) : PublicAddress :=
  self.addr_pk

/-- The accessor `Address::getPrivateAddress`. -/
def getPrivateAddress (self : Address) : PrivateAddress :=
  self.addr_sk

/-- The accessor `Address::getEncryptionSecretKey`. -/
def getEncryptionSecretKey (self : Address) : String :=
  self.addr_sk.getEncryptionSecretKey

/-- The accessor `Address::getAddressSecret`. -/
def getAddressSecret (self : Address) : List Nat :=
  self.addr_sk.getAddressSecret

/-- The operator `Address::operator==`. -/
def eq (self rhs : Address) : Bool :=
  (self.addr_sk.eq rhs.addr_sk) && (self.addr_pk.eq rhs.addr_pk)

/-- The operator `Address::operator!=`. -/
def ne (self rhs : Address) : Bool :=
  !(self.eq rhs)

end Address

/-! ## A concrete instance of the outside operations, for evaluation -/

/-- A toy hash with 256-bit output: the first 256 bits of the input (filled up with zero bits
when the input is shorter), each flipped. -/
def toyH (input : List Bool) : List Bool :=
  ((input ++ List.replicate 256 false).take 256).map not

/-- A toy key encoding: the key `k` is written as the letter `s` followed by `k` letters `x`. -/
def toySave (tag : Char) (k : Nat) : String :=
  String.mk (tag :: List.replicate k 'x')

/-- A toy key decoder: exactly the strings that `toySave 's'` writes decode. -/
def toyLoad (s : String) : Option Nat :=
  match s.data with
  | [] => none
  | c :: rest => if c = 's' ∧ rest = List.replicate rest.length 'x' then some rest.length else none

/-- A toy instance of `Crypto`: private and public keys are numbers, the public key of `k` is
`7 * k`. -/
def toyCrypto : Crypto Nat Nat where
  H := toyH
  H_length := by
    intro input
    simp only [toyH, List.length_map, List.length_take, List.length_append, List.length_replicate]
    omega
  Load := toyLoad
  MakePublicKey := fun k => 7 * k
  SavePublicKey := toySave 'p'
  SavePrivateKey := toySave 's'

/-- A private address with a 32-byte secret (the bytes 0 to 31) and a key that `toyLoad`
decodes. -/
def toyPriv : PrivateAddress :=
  { a_sk := List.range 32, sk_enc := "sxx" }

/-- The public address that belongs to `toyPriv` under `toyCrypto`. -/
def toyPub : PublicAddress :=
  { a_pk := (List.range 32).map fun i => 255 - i, pk_enc := "pxxxxxxxxxxxxxx" }

/-- A private address with a 3-byte secret and a key that `toyLoad` decodes. -/
def shortPriv : PrivateAddress :=
  { a_sk := [1, 2, 3], sk_enc := "sx" }

/-- An array of `a_sk_size` random bytes: byte `i` is `7 * i`. -/
def toyRand : Fin a_sk_size → Nat :=
  fun i => 7 * i.val

/-- The address that `Address()` builds under `toyCrypto` from the random bytes `toyRand` and
the random key 3. -/
def toyAddress : Address :=
  { addr_pk :=
      { a_pk := (List.range 32).map fun i => 255 - 7 * i, pk_enc := "pxxxxxxxxxxxxxxxxxxxxx" },
    addr_sk := { a_sk := (List.range 32).map fun i => 7 * i, sk_enc := "sxxx" } }

/-- The bits of a byte sequence, as the spec reads `a_sk`: eight bits for each byte. -/
def bits (bytes : List Nat) : List Bool :=
  bytes.flatMap byteToBits

/-- The spec's `a_pk = H( a_sk || 0^256 )`, written after the spec's words: the byte encoding
of the hash of the bits of `a_sk` followed by 256 zero bits. -/
def spec_a_pk {SK PK : Type} (E : Crypto SK PK) (a_sk : List Nat) : List Nat :=
  bitsToBytes (E.H (bits a_sk ++ List.replicate 256 false))

/-! ## Lemmas -/

theorem byteToBits_length (c : Nat) : (byteToBits c).length = 8 := by
  simp [byteToBits]

theorem bits_length (bytes : List Nat) : (bits bytes).length = 8 * bytes.length := by
  induction bytes with
  | nil => rfl
  | cons c cs ih =>
    have hc : bits (c :: cs) = byteToBits c ++ bits cs := by simp [bits]
    rw [hc, List.length_append, byteToBits_length, ih, List.length_cons]
    omega

/-- What `createPublicAddress` does when `Load` gives a key: it returns, with both fields
assigned. -/
theorem createPublicAddress_of_some {SK PK : Type} (E : Crypto SK PK) (self : PublicAddress)
    (a_sk : List Nat) (sk_enc : String) (k : SK) (h : E.Load sk_enc = some k) :
    self.createPublicAddress E a_sk sk_enc =
      Outcome.returned
        { a_pk := spec_a_pk E a_sk, pk_enc := E.SavePublicKey (E.MakePublicKey k) } := by
  unfold PublicAddress.createPublicAddress
  simp only [h]
  rfl

/-- What `createPublicAddress` does when `Load` throws: it throws, with `a_pk` assigned and
`pk_enc` as before. -/
theorem createPublicAddress_of_none {SK PK : Type} (E : Crypto SK PK) (self : PublicAddress)
    (a_sk : List Nat) (sk_enc : String) (h : E.Load sk_enc = none) :
    self.createPublicAddress E a_sk sk_enc =
      Outcome.threw Error.decodingError { a_pk := spec_a_pk E a_sk, pk_enc := self.pk_enc } := by
  unfold PublicAddress.createPublicAddress
  simp only [h]
  rfl

theorem ctorFrom_of_some {SK PK : Type} (E : Crypto SK PK) (a_sk : List Nat) (sk_enc : String)
    (k : SK) (h : E.Load sk_enc = some k) :
    PublicAddress.ctorFrom E a_sk sk_enc =
      Except.ok { a_pk := spec_a_pk E a_sk, pk_enc := E.SavePublicKey (E.MakePublicKey k) } := by
  simp [PublicAddress.ctorFrom, createPublicAddress_of_some E _ a_sk sk_enc k h]

theorem ctorFrom_of_none {SK PK : Type} (E : Crypto SK PK) (a_sk : List Nat) (sk_enc : String)
    (h : E.Load sk_enc = none) :
    PublicAddress.ctorFrom E a_sk sk_enc = Except.error Error.decodingError := by
  simp [PublicAddress.ctorFrom, createPublicAddress_of_none E _ a_sk sk_enc h]

theorem ctorFromPriv_of_some {SK PK : Type} (E : Crypto SK PK) (priv : PrivateAddress) (k : SK)
    (h : E.Load priv.sk_enc = some k) :
    Address.ctorFromPriv E priv =
      Except.ok
        { addr_pk :=
            { a_pk := spec_a_pk E priv.a_sk, pk_enc := E.SavePublicKey (E.MakePublicKey k) },
          addr_sk := priv } := by
  simp [Address.ctorFromPriv, PrivateAddress.getAddressSecret,
    PrivateAddress.getEncryptionSecretKey, ctorFrom_of_some E priv.a_sk priv.sk_enc k h]

theorem ctorFromPriv_of_none {SK PK : Type} (E : Crypto SK PK) (priv : PrivateAddress)
    (h : E.Load priv.sk_enc = none) :
    Address.ctorFromPriv E priv = Except.error Error.decodingError := by
  simp [Address.ctorFromPriv, PrivateAddress.getAddressSecret,
    PrivateAddress.getEncryptionSecretKey, ctorFrom_of_none E priv.a_sk priv.sk_enc h]

theorem ctor_of_some {SK PK : Type} (E : Crypto SK PK) (a_sk_bytes : Fin a_sk_size → Nat)
    (privateKey k : SK) (h : E.Load (E.SavePrivateKey privateKey) = some k) :
    Address.ctor E a_sk_bytes privateKey =
      Except.ok
        { addr_pk :=
            { a_pk := spec_a_pk E (List.ofFn a_sk_bytes),
              pk_enc := E.SavePublicKey (E.MakePublicKey k) },
          addr_sk := { a_sk := List.ofFn a_sk_bytes, sk_enc := E.SavePrivateKey privateKey } } := by
  simp [Address.ctor, convertBytesToBytesVector, PrivateAddress.createPrivateAddress,
    createPublicAddress_of_some E _ _ _ k h]

theorem ctor_of_none {SK PK : Type} (E : Crypto SK PK) (a_sk_bytes : Fin a_sk_size → Nat)
    (privateKey : SK) (h : E.Load (E.SavePrivateKey privateKey) = none) :
    Address.ctor E a_sk_bytes privateKey = Except.error Error.decodingError := by
  simp [Address.ctor, convertBytesToBytesVector, createPublicAddress_of_none E _ _ _ h]

/-! ## The claims -/

/-- C1: for a 32-byte `a_sk` and an `sk_enc` that decodes, `createPublicAddress` returns and the
stored `a_pk` is the byte encoding of `H` applied to the bits of `a_sk` followed by 256 zero
bits; that input has exactly 512 bits, the 256 bits of `a_sk` first. -/
theorem C1_a_pk_is_hash_of_a_sk_then_zeros {SK PK : Type} (E : Crypto SK PK)
    (self : PublicAddress) (a_sk : List Nat) (sk_enc : String) (k : SK)
    (h32 : a_sk.length = 32) (hdec : E.Load sk_enc = some k) :
    (self.createPublicAddress E a_sk sk_enc).failed = false ∧
    (self.createPublicAddress E a_sk sk_enc).self.getPublicAddressSecret =
      bitsToBytes (E.H (bits a_sk ++ List.replicate 256 false)) ∧
    (bits a_sk).length = 256 ∧
    (bits a_sk ++ List.replicate 256 false).length = 512 ∧
    (bits a_sk ++ List.replicate 256 false).take 256 = bits a_sk ∧
    (bits a_sk ++ List.replicate 256 false).drop 256 = List.replicate 256 false := by
  have hlen : (bits a_sk).length = 256 := by rw [bits_length, h32]
  rw [createPublicAddress_of_some E self a_sk sk_enc k hdec]
  refine ⟨rfl, rfl, hlen, ?_, ?_, ?_⟩
  · rw [List.length_append, hlen, List.length_replicate]
  · rw [← hlen, List.take_left]
  · rw [← hlen, List.drop_left]

set_option maxRecDepth 100000 in
/-- C1 at `toyPriv`: the secret has 32 bytes, the key decodes to 2, and the theorem applies. -/
theorem C1_witness :
    toyPriv.a_sk.length = 32 ∧ toyCrypto.Load toyPriv.sk_enc = some 2 ∧
    (PublicAddress.ctor.createPublicAddress toyCrypto toyPriv.a_sk toyPriv.sk_enc).self.getPublicAddressSecret =
      bitsToBytes (toyCrypto.H (bits toyPriv.a_sk ++ List.replicate 256 false)) :=
  ⟨by decide, by decide,
    (C1_a_pk_is_hash_of_a_sk_then_zeros toyCrypto PublicAddress.ctor toyPriv.a_sk toyPriv.sk_enc 2
      (by decide) (by decide)).2.1⟩

/-- C5: when the `sk_enc` of `priv` decodes, `Address(priv)` completes, its private half is
`priv`, and the pass-through accessors give the `a_sk` and the `sk_enc` of `priv`. -/
theorem C5_reconstruction_copies_private_half {SK PK : Type} (E : Crypto SK PK)
    (priv : PrivateAddress) (k : SK) (hdec : E.Load priv.getEncryptionSecretKey = some k) :
    ∃ A : Address, Address.ctorFromPriv E priv = Except.ok A ∧
      A.getPrivateAddress = priv ∧
      A.getAddressSecret = priv.getAddressSecret ∧
      A.getEncryptionSecretKey = priv.getEncryptionSecretKey :=
  ⟨_, ctorFromPriv_of_some E priv k hdec, rfl, rfl, rfl⟩

/-- C5 at `toyPriv`, whose key decodes to 2. -/
theorem C5_witness :
    toyCrypto.Load toyPriv.getEncryptionSecretKey = some 2 ∧
    ∃ A : Address, Address.ctorFromPriv toyCrypto toyPriv = Except.ok A ∧
      A.getPrivateAddress = toyPriv ∧
      A.getAddressSecret = toyPriv.getAddressSecret ∧
      A.getEncryptionSecretKey = toyPriv.getEncryptionSecretKey :=
  ⟨by decide, C5_reconstruction_copies_private_half toyCrypto toyPriv 2 (by decide)⟩

/-- C7: `A == B` holds exactly when the four fields `a_sk`, `sk_enc`, `a_pk`, `pk_enc` agree,
and `A != B` is the negation of `A == B`; the same for `PrivateAddress` over `a_sk`, `sk_enc`
and for `PublicAddress` over `a_pk`, `pk_enc`. -/
theorem C7_equality_semantics (A B : Address) (p q : PrivateAddress) (u v : PublicAddress) :
    (A.eq B = true ↔
      A.addr_sk.a_sk = B.addr_sk.a_sk ∧ A.addr_sk.sk_enc = B.addr_sk.sk_enc ∧
      A.addr_pk.a_pk = B.addr_pk.a_pk ∧ A.addr_pk.pk_enc = B.addr_pk.pk_enc) ∧
    A.ne B = !(A.eq B) ∧
    (p.eq q = true ↔ p.a_sk = q.a_sk ∧ p.sk_enc = q.sk_enc) ∧
    p.ne q = !(p.eq q) ∧
    (u.eq v = true ↔ u.a_pk = v.a_pk ∧ u.pk_enc = v.pk_enc) ∧
    u.ne v = !(u.eq v) := by
  refine ⟨?_, rfl, ?_, rfl, ?_, rfl⟩
  · simp [Address.eq, PrivateAddress.eq, PublicAddress.eq, and_assoc]
  · simp [PrivateAddress.eq]
  · simp [PublicAddress.eq]

/-- C9: `createPrivateAddress(a_sk, sk_enc)` is total and assigns both fields, for an `a_sk` of
any length, any `sk_enc` and any previous contents of the object. -/
theorem C9_createPrivateAddress_assigns (self : PrivateAddress) (a_sk : List Nat)
    (sk_enc : String) :
    (self.createPrivateAddress a_sk sk_enc).getAddressSecret = a_sk ∧
    (self.createPrivateAddress a_sk sk_enc).getEncryptionSecretKey = sk_enc ∧
    self.createPrivateAddress a_sk sk_enc = { a_sk := a_sk, sk_enc := sk_enc } :=
  ⟨rfl, rfl, rfl⟩

/-- C2: an `Address` that either constructor completed is consistent: `createPublicAddress`
applied to the `a_sk` and `sk_enc` of its private half, on an object in any state, returns its
public half; and `Address(priv)` applied to its private half completes with the same address,
so with the same public half. -/
theorem C2_constructed_address_consistent {SK PK : Type} (E : Crypto SK PK)
    (priv : PrivateAddress) (a_sk_bytes : Fin a_sk_size → Nat) (privateKey : SK) (A : Address)
    (h : Address.ctorFromPriv E priv = Except.ok A ∨
      Address.ctor E a_sk_bytes privateKey = Except.ok A) :
    (∀ s : PublicAddress,
      s.createPublicAddress E A.getPrivateAddress.getAddressSecret
        A.getPrivateAddress.getEncryptionSecretKey = Outcome.returned A.getPublicAddress) ∧
    PublicAddress.ctorFrom E A.getAddressSecret A.getEncryptionSecretKey =
      Except.ok A.getPublicAddress ∧
    Address.ctorFromPriv E A.getPrivateAddress = Except.ok A := by
  rcases h with h | h
  · cases hL : E.Load priv.sk_enc with
    | none => rw [ctorFromPriv_of_none E priv hL] at h; cases h
    | some k =>
      rw [ctorFromPriv_of_some E priv k hL] at h
      cases h
      exact ⟨fun s => createPublicAddress_of_some E s priv.a_sk priv.sk_enc k hL,
        ctorFrom_of_some E priv.a_sk priv.sk_enc k hL, ctorFromPriv_of_some E priv k hL⟩
  · cases hL : E.Load (E.SavePrivateKey privateKey) with
    | none => rw [ctor_of_none E a_sk_bytes privateKey hL] at h; cases h
    | some k =>
      rw [ctor_of_some E a_sk_bytes privateKey k hL] at h
      cases h
      exact ⟨fun s => createPublicAddress_of_some E s _ _ k hL,
        ctorFrom_of_some E _ _ k hL, ctorFromPriv_of_some E ⟨_, _⟩ k hL⟩

set_option maxRecDepth 100000 in
/-- C2 on the random-generation path: `Address()` with the draws `toyRand` and 3 completes with
`toyAddress`, and rebuilding from the private half of `toyAddress` gives `toyAddress` again. -/
theorem C2_witness :
    Address.ctor toyCrypto toyRand 3 = Except.ok toyAddress ∧
    PublicAddress.ctorFrom toyCrypto toyAddress.getAddressSecret
      toyAddress.getEncryptionSecretKey = Except.ok toyAddress.getPublicAddress ∧
    Address.ctorFromPriv toyCrypto toyAddress.getPrivateAddress = Except.ok toyAddress :=
  ⟨by rfl,
    (C2_constructed_address_consistent toyCrypto toyPriv toyRand 3 toyAddress
      (Or.inr (by rfl))).2⟩

set_option maxRecDepth 100000 in
/-- C3 as stated fails: with 32 zero bytes as `a_sk` and a string that does not decode,
`createPublicAddress` on a freshly constructed `PublicAddress` throws, and the `a_pk` of the
object is no longer the 32 zero bytes it held before the call. -/
theorem C3_counterexample :
    toyCrypto.Load "garbage" = none ∧
    PublicAddress.ctor.a_pk = List.replicate 32 0 ∧
    PublicAddress.ctor.createPublicAddress toyCrypto (List.replicate 32 0) "garbage" =
      Outcome.threw Error.decodingError { a_pk := List.replicate 32 255, pk_enc := "" } ∧
    (PublicAddress.ctor.createPublicAddress toyCrypto (List.replicate 32 0) "garbage").self.a_pk ≠
      PublicAddress.ctor.a_pk := by
  refine ⟨by decide, by decide, by decide, by decide⟩

/-- C3, amended: when `sk_enc` does not decode, `createPublicAddress` throws the decoding
error; the `pk_enc` of the object is as before the call, its `a_pk` has been overwritten with
the byte encoding of `H` of the bits of `a_sk` followed by 256 zero bits; the constructors
`PublicAddress(a_sk, sk_enc)` and `Address(priv)` throw the same error and give no object. -/
theorem C3_failure_leaves_pk_enc_and_no_object {SK PK : Type} (E : Crypto SK PK)
    (self : PublicAddress) (a_sk : List Nat) (sk_enc : String) (hbad : E.Load sk_enc = none) :
    self.createPublicAddress E a_sk sk_enc =
      Outcome.threw Error.decodingError
        { a_pk := bitsToBytes (E.H (bits a_sk ++ List.replicate 256 false)),
          pk_enc := self.pk_enc } ∧
    (self.createPublicAddress E a_sk sk_enc).self.pk_enc = self.pk_enc ∧
    PublicAddress.ctorFrom E a_sk sk_enc = Except.error Error.decodingError ∧
    Address.ctorFromPriv E { a_sk := a_sk, sk_enc := sk_enc } =
      Except.error Error.decodingError := by
  refine ⟨createPublicAddress_of_none E self a_sk sk_enc hbad, ?_,
    ctorFrom_of_none E a_sk sk_enc hbad, ctorFromPriv_of_none E ⟨a_sk, sk_enc⟩ hbad⟩
  rw [createPublicAddress_of_none E self a_sk sk_enc hbad]
  rfl

/-- C3, amended, at `toyPub` with the secret of `toyPriv` and a string that does not decode. -/
theorem C3_witness :
    toyCrypto.Load "garbage" = none ∧
    (toyPub.createPublicAddress toyCrypto toyPriv.a_sk "garbage").self.pk_enc = toyPub.pk_enc ∧
    PublicAddress.ctorFrom toyCrypto toyPriv.a_sk "garbage" = Except.error Error.decodingError ∧
    Address.ctorFromPriv toyCrypto { a_sk := toyPriv.a_sk, sk_enc := "garbage" } =
      Except.error Error.decodingError :=
  ⟨by decide,
    (C3_failure_leaves_pk_enc_and_no_object toyCrypto toyPub toyPriv.a_sk "garbage"
      (by decide)).2⟩

/-- C6: for an `sk_enc` that decodes, `createPublicAddress(a_sk, sk_enc)` on two objects in any
two prior states returns the same `(a_pk, pk_enc)`, which the two arguments alone fix. -/
theorem C6_derivation_deterministic {SK PK : Type} (E : Crypto SK PK) (s₁ s₂ : PublicAddress)
    (a_sk : List Nat) (sk_enc : String) (k : SK) (hdec : E.Load sk_enc = some k) :
    s₁.createPublicAddress E a_sk sk_enc = s₂.createPublicAddress E a_sk sk_enc ∧
    s₁.createPublicAddress E a_sk sk_enc =
      Outcome.returned
        { a_pk := bitsToBytes (E.H (bits a_sk ++ List.replicate 256 false)),
          pk_enc := E.SavePublicKey (E.MakePublicKey k) } := by
  rw [createPublicAddress_of_some E s₁ a_sk sk_enc k hdec,
    createPublicAddress_of_some E s₂ a_sk sk_enc k hdec]
  exact ⟨rfl, rfl⟩

/-- C6 at the fresh object and at `toyPub`, with the secret and key of `toyPriv`. -/
theorem C6_witness :
    toyCrypto.Load toyPriv.sk_enc = some 2 ∧
    PublicAddress.ctor.createPublicAddress toyCrypto toyPriv.a_sk toyPriv.sk_enc =
      toyPub.createPublicAddress toyCrypto toyPriv.a_sk toyPriv.sk_enc :=
  ⟨by decide,
    (C6_derivation_deterministic toyCrypto PublicAddress.ctor toyPub toyPriv.a_sk toyPriv.sk_enc 2
      (by decide)).1⟩

/-- C8: `Address(priv)` completes exactly when the `sk_enc` of `priv` decodes, whatever `a_sk`
is, and otherwise throws the decoding error to its caller; `createPublicAddress` throws exactly
when `sk_enc` does not decode, and the error it throws is the decoding error. -/
theorem C8_fails_iff_key_undecodable {SK PK : Type} (E : Crypto SK PK) (priv : PrivateAddress)
    (self : PublicAddress) (a_sk : List Nat) (sk_enc : String) :
    ((∃ A : Address, Address.ctorFromPriv E priv = Except.ok A) ↔
      (E.Load priv.getEncryptionSecretKey).isSome = true) ∧
    (Address.ctorFromPriv E priv = Except.error Error.decodingError ↔
      E.Load priv.getEncryptionSecretKey = none) ∧
    ((∃ r : PublicAddress, self.createPublicAddress E a_sk sk_enc = Outcome.returned r) ↔
      (E.Load sk_enc).isSome = true) ∧
    ((∃ r : PublicAddress,
        self.createPublicAddress E a_sk sk_enc = Outcome.threw Error.decodingError r) ↔
      E.Load sk_enc = none) := by
  refine ⟨?_, ?_, ?_, ?_⟩
  · cases hL : E.Load priv.sk_enc with
    | none => simp [PrivateAddress.getEncryptionSecretKey, hL, ctorFromPriv_of_none E priv hL]
    | some k => simp [PrivateAddress.getEncryptionSecretKey, hL, ctorFromPriv_of_some E priv k hL]
  · cases hL : E.Load priv.sk_enc with
    | none => simp [PrivateAddress.getEncryptionSecretKey, hL, ctorFromPriv_of_none E priv hL]
    | some k => simp [PrivateAddress.getEncryptionSecretKey, hL, ctorFromPriv_of_some E priv k hL]
  · cases hL : E.Load sk_enc with
    | none => simp [createPublicAddress_of_none E self a_sk sk_enc hL]
    | some k => simp [createPublicAddress_of_some E self a_sk sk_enc k hL]
  · cases hL : E.Load sk_enc with
    | none => simp [createPublicAddress_of_none E self a_sk sk_enc hL]
    | some k => simp [createPublicAddress_of_some E self a_sk sk_enc k hL]

/-- C10: `createPublicAddress` with the same `a_sk` and two keys that decode stores the same
`a_pk`; with the same key that decodes and two values of `a_sk` it stores the same `pk_enc`;
in both cases whatever the objects held before. -/
theorem C10_derivations_separate {SK PK : Type} (E : Crypto SK PK) (s₁ s₂ : PublicAddress)
    (a_sk a_sk' : List Nat) (sk_enc sk_enc' : String) (k k' : SK)
    (hdec : E.Load sk_enc = some k) (hdec' : E.Load sk_enc' = some k') :
    (s₁.createPublicAddress E a_sk sk_enc).self.getPublicAddressSecret =
      (s₂.createPublicAddress E a_sk sk_enc').self.getPublicAddressSecret ∧
    (s₁.createPublicAddress E a_sk sk_enc).self.getEncryptionPublicKey =
      (s₂.createPublicAddress E a_sk' sk_enc).self.getEncryptionPublicKey ∧
    (s₁.createPublicAddress E a_sk sk_enc).failed = false ∧
    (s₂.createPublicAddress E a_sk sk_enc').failed = false ∧
    (s₂.createPublicAddress E a_sk' sk_enc).failed = false := by
  rw [createPublicAddress_of_some E s₁ a_sk sk_enc k hdec,
    createPublicAddress_of_some E s₂ a_sk sk_enc' k' hdec',
    createPublicAddress_of_some E s₂ a_sk' sk_enc k hdec]
  exact ⟨rfl, rfl, rfl, rfl, rfl⟩

/-- C10 at the secrets of `toyPriv` and `shortPriv` and the keys `"sxx"` and `"sx"`. -/
theorem C10_witness :
    toyCrypto.Load "sxx" = some 2 ∧ toyCrypto.Load "sx" = some 1 ∧
    (PublicAddress.ctor.createPublicAddress toyCrypto toyPriv.a_sk "sxx").self.getPublicAddressSecret =
      (toyPub.createPublicAddress toyCrypto toyPriv.a_sk "sx").self.getPublicAddressSecret ∧
    (PublicAddress.ctor.createPublicAddress toyCrypto toyPriv.a_sk "sxx").self.getEncryptionPublicKey =
      (toyPub.createPublicAddress toyCrypto shortPriv.a_sk "sxx").self.getEncryptionPublicKey :=
  ⟨by decide, by decide,
    (C10_derivations_separate toyCrypto PublicAddress.ctor toyPub toyPriv.a_sk shortPriv.a_sk
      "sxx" "sx" 2 1 (by decide) (by decide)).1,
    (C10_derivations_separate toyCrypto PublicAddress.ctor toyPub toyPriv.a_sk shortPriv.a_sk
      "sxx" "sx" 2 1 (by decide) (by decide)).2.1⟩

end libzerocash
